import Mathlib

set_option maxRecDepth 16384

/-!
Verification development for `misc/analyze_gas_results.py`, a batch pipeline
that loads a CSV of gas-benchmark rows, prints descriptive statistics, fits an
ordinary-least-squares regression, renders plots to `gas_analysis.png` and
writes a generated TypeScript estimator to `estimateJobGas.ts`.

Modelling conventions:
* A parsed CSV row is the structure `Row`; numeric cells are embedded as `ℚ`
  (the floats of the script carry no rounding-sensitive control flow for the
  properties below).  A file system maps a path to `Option (List Row)`:
  `none` stands for a missing file, `some df` for a file that parses into the
  data frame `df`.
* Fallible library calls (`DataFrame.drop` with a missing label, `.loc` with a
  missing key, `LinearRegression.fit` on an empty or NaN-containing matrix)
  are embedded as `Option`; `none` is an uncaught Python exception, which the
  function `main` of the script turns into exit status 1.
* `pandas.Series.map` with a dictionary yields NaN for an unmapped key; the
  derived `FilterBytes` column is therefore `Option ℚ` valued.
* The exact text printed to stdout is abstracted: `output` keeps the lines the
  claims inspect verbatim (the usage message) and renders the remaining
  diagnostics through `toString`; no claim inspects those renderings.
* The sklearn least-squares solver is embedded as the closed-form normal
  equations over `ℚ`, solved by Gaussian elimination; for a singular system
  (rank-deficient design matrix) the embedded solver falls back to the zero
  vector, standing for the unspecified-but-deterministic sklearn minimum-norm
  solution.  Float epsilon handling in `r2_score` and
  `mean_absolute_percentage_error` is embedded using `ℚ` division (with `x / 0 = 0`); both
  numbers feed only printed diagnostics.
-/

/-- One parsed CSV record of `gas_benchmark_results.csv` (columns used by the
script: Operation, FilterComplexity, Rows, Columns, OpenJobGas, PushRowTotal,
PushRowAvg, FinalizeGas, TotalGas). -/
structure Row where
  operation : String
  filterComplexity : String
  rows : Nat
  columns : Nat
  openJobGas : ℚ
  pushRowTotal : ℚ
  pushRowAvg : ℚ
  finalizeGas : ℚ
  totalGas : ℚ
deriving DecidableEq, Repr

/-- The dictionary `filter_bytecode_map` of `load_and_prepare_data`
(lines 34-39). -/
def filter_bytecode_map : List (String × ℚ) :=
  [("none", 0), ("simple", 7), ("medium", 15), ("complex", 30)]

/-- Embeds `df[FilterComplexity].map(filter_bytecode_map)` for one row (line 40);
an unmapped label becomes NaN in pandas, embedded as `none`. -/
def filterBytes (r : Row) : Option ℚ :=
  (filter_bytecode_map).lookup r.filterComplexity

/-- Lexicographic comparison on code points, the order pandas uses when
sorting string group keys and `get_dummies` columns. -/
def charListLe : List Char → List Char → Bool
  | [], _ => true
  | _ :: _, [] => false
  | a :: as, b :: bs =>
    if a = b then charListLe as bs else decide (a < b)

def strLe (a b : String) : Bool := charListLe a.data b.data

def insertSorted (a : String) : List String → List String
  | [] => [a]
  | b :: bs => if strLe a b then a :: b :: bs else b :: insertSorted a bs

/-- Sorted order in which pandas emits group keys / dummy columns. -/
def sortStrings : List String → List String
  | [] => []
  | a :: as => insertSorted a (sortStrings as)

/-- The distinct values of a string column, in the sorted order used by
`groupby` and `get_dummies`. -/
def sortedDistinct (vals : List String) : List String :=
  sortStrings vals.dedup

/-- First-occurrence distinct values, the order of `Series.unique()`
(used by the fourth plot panel, line 181). -/
def uniqueFirstAux (seen : List String) : List String → List String
  | [] => []
  | a :: l =>
    if a ∈ seen then uniqueFirstAux seen l else a :: uniqueFirstAux (a :: seen) l

def uniqueFirst (l : List String) : List String := uniqueFirstAux [] l

def qsum (l : List ℚ) : ℚ := l.foldl (· + ·) 0

/-- Embeds `Series.mean()` of a nonempty series (all series the script averages over
groups are nonempty; an empty data frame only yields NaN in printed text). -/
def qmean (l : List ℚ) : ℚ := qsum l / l.length

def qminD : List ℚ → ℚ
  | [] => 0
  | x :: xs => xs.foldl min x

def qmaxD : List ℚ → ℚ
  | [] => 0
  | x :: xs => xs.foldl max x

/-- Embeds `Series.std()` (ddof = 1) squared, i.e. the sample variance; pandas prints
its square root, and returns NaN (`none`) for groups of size ≤ 1. -/
def sampleVar (l : List ℚ) : Option ℚ :=
  if l.length ≤ 1 then none
  else some (qsum (l.map (fun x => (x - qmean l) ^ 2)) / (l.length - 1 : ℚ))

/-- An aggregated cell of `DataFrame.agg`: a rational value, the square root
of a rational (`std`), or NaN. -/
inductive StatVal where
  | val (q : ℚ)
  | sqrtVal (q : ℚ)
  | na
deriving DecidableEq, Repr

/-- One named aggregate of `Series.agg` over the values of a group. -/
def aggValue (stat : String) (l : List ℚ) : StatVal :=
  if stat = "mean" then .val (qmean l)
  else if stat = "min" then .val (qminD l)
  else if stat = "max" then .val (qmaxD l)
  else if stat = "std" then
    match sampleVar l with
    | some v => .sqrtVal v
    | none => .na
  else .na

/-- The `TotalGas` values of the group of rows whose `key` equals `k`. -/
def groupVals (key : Row → String) (df : List Row) (k : String) : List ℚ :=
  (df.filter (fun r => key r = k)).map Row.totalGas

/-- Embeds `df.groupby(key)[TotalGas].agg(aggs)`: one line per distinct key in
sorted order, one named aggregate per entry of `aggs`. -/
def aggTable (key : Row → String) (df : List Row) (aggs : List String) :
    List (String × List (String × StatVal)) :=
  (sortedDistinct (df.map key)).map
    (fun k => (k, aggs.map (fun s => (s, aggValue s (groupVals key df k)))))

/-- Aggregates requested for the Operation grouping (line 54). -/
def opAggList : List String := ["mean", "min", "max", "std"]

/-- Aggregates requested for the FilterComplexity grouping (line 57). -/
def fcAggList : List String := ["mean", "min", "max"]

/-- The data printed by `analyze_basic_statistics` (lines 47-63): the two
grouped aggregate tables and the phase-breakdown averages. -/
structure BasicStats where
  opTable : List (String × List (String × StatVal))
  fcTable : List (String × List (String × StatVal))
  openJobMean : ℚ
  pushRowTotalMean : ℚ
  finalizeMean : ℚ
  totalMean : ℚ
deriving DecidableEq, Repr

def analyze_basic_statistics (df : List Row) : BasicStats :=
  { opTable := aggTable Row.operation df opAggList
    fcTable := aggTable Row.filterComplexity df fcAggList
    openJobMean := qmean (df.map Row.openJobGas)
    pushRowTotalMean := qmean (df.map Row.pushRowTotal)
    finalizeMean := qmean (df.map Row.finalizeGas)
    totalMean := qmean (df.map Row.totalGas) }

/-- Embeds `analyze_per_row_costs` (lines 126-141): mean `PushRowAvg` per
operation, then `per_row.loc[COUNT, mean]` — a `KeyError` (embedded `none`) when no
COUNT row exists — and the table of ratios to that baseline. -/
def analyze_per_row_costs (df : List Row) : Option (List (String × ℚ)) :=
  let per_row := (sortedDistinct (df.map Row.operation)).map
    (fun k => (k, qmean ((df.filter (fun r => Row.operation r = k)).map Row.pushRowAvg)))
  match per_row.lookup "COUNT" with
  | none => none
  | some baseline => some (per_row.map (fun p => (p.1, p.2 / baseline)))

/-- Dot product of two equally long rational vectors. -/
def dot (u v : List ℚ) : ℚ := ((u.zip v).map (fun p => p.1 * p.2)).foldl (· + ·) 0

/-- Columns of a rectangular matrix stored as a list of rows. -/
def transposeQ (m : List (List ℚ)) : List (List ℚ) :=
  (List.range (m.headD []).length).map (fun i => m.map (fun r => r.getD i 0))

/-- First row with a nonzero leading entry, and the remaining rows. -/
def findPivot : List (List ℚ) → Option (List ℚ × List (List ℚ))
  | [] => none
  | r :: rs =>
    if r.headD 0 ≠ 0 then some (r, rs)
    else
      match findPivot rs with
      | some (p, rest) => some (p, r :: rest)
      | none => none

/-- Gaussian elimination with back substitution on an augmented square system
(each row `[a₁, …, aₙ, b]`); `none` when no pivot is available (singular
system). -/
def gsolveAux : Nat → List (List ℚ) → Option (List ℚ)
  | _, [] => some []
  | 0, _ :: _ => none
  | fuel + 1, rows =>
    match findPivot rows with
    | none => none
    | some (p, rest) =>
      let p0 := p.headD 0
      let ptail := p.tail
      let rest2 := rest.map (fun r =>
        let f := r.headD 0 / p0
        ((r.tail).zip ptail).map (fun ab => ab.1 - f * ab.2))
      match gsolveAux fuel rest2 with
      | none => none
      | some xs =>
        let b := ptail.getLastD 0
        let coeffs := ptail.dropLast
        some (((b - dot coeffs xs) / p0) :: xs)

def gsolve (rows : List (List ℚ)) : Option (List ℚ) := gsolveAux rows.length rows

/-- Embeds `LinearRegression().fit(X, y)` as the normal equations
`(1|X)ᵀ(1|X) β = (1|X)ᵀ y` of the intercept-augmented design matrix, solved
exactly over `ℚ`; a singular (rank-deficient) system falls back to the zero
vector, standing for the unspecified sklearn minimum-norm least-squares
solution.  Returns the vector `intercept :: coefficients`. -/
def olsFit (xrows : List (List ℚ)) (y : List ℚ) : List ℚ :=
  let x1 := xrows.map (fun r => 1 :: r)
  let t := transposeQ x1
  let aug := t.map (fun u => (t.map (fun v => dot u v)) ++ [dot u y])
  (gsolve aug).getD (List.replicate t.length 0)

/-- Distinct `Operation` values in the sorted order `pd.get_dummies` uses for
its columns. -/
def opNames (df : List Row) : List String := sortedDistinct (df.map Row.operation)

/-- One dummy column of `pd.get_dummies` on the Operation column. -/
def dummyCol (df : List Row) (v : String) : List ℚ :=
  df.map (fun r => if Row.operation r = v then 1 else 0)

/-- Embeds `pd.get_dummies` on the Operation column with Op as name front
(line 81): one binary
column per distinct operation value, in sorted order. -/
def operationDummies (df : List Row) : List (String × List ℚ) :=
  (opNames df).map (fun v => ("Op_" ++ v, dummyCol df v))

/-- The named feature columns of `build_regression_model` (lines 74-84):
`Rows`, `Columns`, `FilterBytes`, optionally the `Rows_x_Columns` elementwise
product, then the operation dummies. -/
def baseX (df : List Row) (include_interaction : Bool) :
    List (String × List (Option ℚ)) :=
  [("Rows", df.map (fun r => some ((r.rows : ℚ)))),
   ("Columns", df.map (fun r => some ((r.columns : ℚ)))),
   ("FilterBytes", df.map filterBytes)]
  ++ (if include_interaction then
        [("Rows_x_Columns", df.map (fun r => some ((r.rows : ℚ) * (r.columns : ℚ))))]
      else [])

/-- The full feature matrix `X` after
`operation_dummies.drop(Op_COUNT, axis=1)` (line 83): dropping raises a
`KeyError` (embedded `none`) when no `Op_COUNT` column exists. -/
def buildX (df : List Row) (include_interaction : Bool) :
    Option (List (String × List (Option ℚ))) :=
  if ("Op_COUNT") ∈ (operationDummies df).map Prod.fst then
    some (baseX df include_interaction
      ++ ((operationDummies df).filter (fun p => p.1 ≠ "Op_COUNT")).map
          (fun p => (p.1, p.2.map some)))
  else none

/-- Feature names of `X`, ignoring the drop failure (used by the total-fit
helper below, whose callers guard on `buildX` succeeding). -/
def featureNamesD (df : List Row) (include_interaction : Bool) : List String :=
  ["Rows", "Columns", "FilterBytes"]
  ++ (if include_interaction then ["Rows_x_Columns"] else [])
  ++ ((opNames df).filter (fun v => v ≠ "COUNT")).map (fun v => "Op_" ++ v)

/-- One row of the feature matrix as a rational vector (`FilterBytes`
defaulted; callers guard on every label being mapped). -/
def designRow (ops : List String) (include_interaction : Bool) (r : Row) : List ℚ :=
  [(r.rows : ℚ), (r.columns : ℚ), (filterBytes r).getD 0]
  ++ (if include_interaction then [(r.rows : ℚ) * (r.columns : ℚ)] else [])
  ++ ops.map (fun v => if Row.operation r = v then 1 else 0)

def designRows (df : List Row) (include_interaction : Bool) : List (List ℚ) :=
  df.map (designRow ((opNames df).filter (fun v => v ≠ "COUNT")) include_interaction)

/-- The target column `y = df[target]` (the script passes `TotalGas` and
`PushRowTotal`). -/
def targetColumn (target : String) (r : Row) : ℚ :=
  if target = "TotalGas" then r.totalGas
  else if target = "PushRowTotal" then r.pushRowTotal
  else 0

/-- What `build_regression_model` returns (line 124) besides `X` and `y`:
the fitted intercept, the coefficient table sorted by coefficient descending
(lines 116-120), and the in-sample predictions. -/
structure FitResult where
  intercept : ℚ
  coef_df : List (String × ℚ)
  y_pred : List ℚ
deriving DecidableEq, Repr

/-- Embeds `coef_df.sort_values` by Coefficient, descending (line 120). -/
def sortByCoefDesc (l : List (String × ℚ)) : List (String × ℚ) :=
  List.insertionSort (fun p q => q.2 ≤ p.2) l

/-- The pure model-fitting part of `build_regression_model` (lines 74-93 and
116-120): everything the function returns, computed before and independently
of the printed threshold diagnostics. -/
def regressionFit (df : List Row) (target : String) (include_interaction : Bool) :
    FitResult :=
  let xr := designRows df include_interaction
  let y := df.map (targetColumn target)
  let beta := olsFit xr y
  let intercept := beta.headD 0
  let coefs := beta.tail
  { intercept := intercept
    coef_df := sortByCoefDesc ((featureNamesD df include_interaction).zip coefs)
    y_pred := xr.map (fun row => intercept + dot row coefs) }

/-- Embeds `r2_score(y, y_pred)` as `1 - ss_res / ss_tot` over `ℚ` (constant-target
degeneracy only changes printed text). -/
def r2_score (y y_pred : List ℚ) : ℚ :=
  1 - qsum ((y.zip y_pred).map (fun p => (p.1 - p.2) ^ 2))
      / qsum (y.map (fun v => (v - qmean y) ^ 2))

/-- Embeds `mean_absolute_percentage_error(y, y_pred) * 100` over `ℚ` (the
sklearn float-epsilon floor for zero targets only changes printed text). -/
def mape_pct (y y_pred : List ℚ) : ℚ :=
  qmean ((y.zip y_pred).map (fun p => |p.1 - p.2| / |p.1|)) * 100

/-- The threshold diagnostics of lines 97-110, printed and discarded. -/
def thresholdDiag (r2 mape : ℚ) : List String :=
  ["Model Performance:",
   "  R2 Score:  " ++ toString r2,
   "  MAPE:      " ++ toString mape,
   "  Target:    R2 >= 0.60, MAPE <= 40%"]
  ++ [if r2 ≥ 60 / 100 then "  + Model meets R2 target!" else "  - Model below R2 target"]
  ++ [if mape ≤ 40 then "  + Model meets MAPE target!" else "  - Model above MAPE target - consider more terms"]

/-- Embeds `build_regression_model(df, target, include_interaction)` (lines 65-124):
`none` embeds the uncaught exceptions (`KeyError` from dropping a missing
`Op_COUNT`, `ValueError` from fitting an empty or NaN-containing matrix);
otherwise the printed lines and the returned fit. -/
def build_regression_model (df : List Row) (target : String)
    (include_interaction : Bool) : Option (List String × FitResult) :=
  match buildX df include_interaction with
  | none => none
  | some _ =>
    if df.isEmpty || df.any (fun r => (filterBytes r).isNone) then none
    else
      let fit := regressionFit df target include_interaction
      let r2 := r2_score (df.map (targetColumn target)) fit.y_pred
      let mape := mape_pct (df.map (targetColumn target)) fit.y_pred
      some (thresholdDiag r2 mape
              ++ ["Model Coefficients:", "  Intercept: " ++ toString fit.intercept]
              ++ fit.coef_df.map (fun p => "  " ++ p.1 ++ " " ++ toString p.2),
            fit)

/-- The data `visualize_results` (lines 143-192) draws into the four panels of
`gas_analysis.png`: actual vs. predicted totals, the per-operation boxplot
groups, the ten largest coefficients (`coef_df.head(10)`), and the per-first-
occurrence-operation (Rows, TotalGas) scatter series. -/
structure PlotData where
  actual : List ℚ
  predicted : List ℚ
  byOperation : List (String × List ℚ)
  topCoefs : List (String × ℚ)
  scatterOps : List (String × List (ℚ × ℚ))
deriving DecidableEq, Repr

def visualize_results (df : List Row) (y_pred : List ℚ)
    (coef_df : List (String × ℚ)) : PlotData :=
  { actual := df.map Row.totalGas
    predicted := y_pred
    byOperation := (sortedDistinct (df.map Row.operation)).map
      (fun k => (k, groupVals Row.operation df k))
    topCoefs := coef_df.take 10
    scatterOps := (uniqueFirst (df.map Row.operation)).map
      (fun op => (op, (df.filter (fun r => Row.operation r = op)).map
        (fun r => ((r.rows : ℚ), r.totalGas)))) }

/-- Digit characters of a positive numeral, most significant first. -/
def natDigitsAux : Nat → Nat → List Char
  | 0, _ => []
  | fuel + 1, n =>
    if n < 10 then [Char.ofNat (48 + n)]
    else natDigitsAux fuel (n / 10) ++ [Char.ofNat (48 + n % 10)]

def natDigits (n : Nat) : List Char := natDigitsAux (n + 1) n

/-- Decimal rendering of an integer, as Python prints a rounded float with
format `.0f` (modulo the Python `-0` corner, which no claim inspects). -/
def intChars (i : ℤ) : List Char :=
  if i < 0 then '-' :: natDigits i.natAbs else natDigits i.toNat

/-- Round-half-to-even on `ℚ`, the rounding the Python `format(x, .0f)`
applies. -/
def roundHalfEven (q : ℚ) : ℤ :=
  let f := ⌊q⌋
  if q - f < 1 / 2 then f
  else if 1 / 2 < q - f then f + 1
  else if f % 2 = 0 then f else f + 1

/-- The text a `{value:.0f}` field of the code templates renders to. -/
def fmt0 (q : ℚ) : List Char := intChars (roundHalfEven q)

/-- The characters a rendered `.0f` number can contain: a minus sign or a
decimal digit. -/
def isNumChar (c : Char) : Bool :=
  decide (c = '-') || (decide ('0' ≤ c) && decide (c ≤ '9'))

/-- The distinctive text of the rows×columns interaction line of the
generated code (line 252 of the source). -/
def interactionSnippet : String := "  gas += (rows * columns) * "

/-- A template rendered as a leading literal followed by alternating
interpolated numbers and literals, exactly the shape of the two f-strings of
`generate_estimator_code`. -/
def renderAlt (first : List Char) : List (ℚ × List Char) → List Char
  | [] => first
  | (q, lit) :: rest => first ++ (fmt0 q ++ renderAlt lit rest)

/-- Leading literal of the with-interaction template (lines 223-243 up to the
`{intercept:.0f}` field). -/
def tmplWith0 : List Char :=
  ("\n/**\n * Estimates gas cost for a JobManager job based on parameters\n * \n * Model Accuracy: See analysis output for R² and MAPE\n * Model includes Rows × Columns interaction term for better accuracy\n * \n * @param rows Number of rows in dataset\n * @param columns Number of columns in dataset\n * @param operation Operation type\n * @param filterBytes Approximate filter bytecode length\n * @returns Estimated total gas cost\n */\nfunction estimateJobGas(\n  rows: number,\n  columns: number,\n  operation: \x27COUNT\x27 | \x27SUM\x27 | \x27AVG_P\x27 | \x27WEIGHTED_SUM\x27 | \x27MIN\x27 | \x27MAX\x27,\n  filterBytes: number\n): number \x7b\n  // Base cost (intercept)\n  let gas = ").data

/-- Leading literal of the without-interaction template (lines 277-296 up to
the `{intercept:.0f}` field): no `Model includes` doc line. -/
def tmplNo0 : List Char :=
  ("\n/**\n * Estimates gas cost for a JobManager job based on parameters\n * \n * Model Accuracy: See analysis output for R² and MAPE\n * \n * @param rows Number of rows in dataset\n * @param columns Number of columns in dataset\n * @param operation Operation type\n * @param filterBytes Approximate filter bytecode length\n * @returns Estimated total gas cost\n */\nfunction estimateJobGas(\n  rows: number,\n  columns: number,\n  operation: \x27COUNT\x27 | \x27SUM\x27 | \x27AVG_P\x27 | \x27WEIGHTED_SUM\x27 | \x27MIN\x27 | \x27MAX\x27,\n  filterBytes: number\n): number \x7b\n  // Base cost (intercept)\n  let gas = ").data

def tmplRowsLit : List Char :=
  (";\n  \n  // Add per-row cost\n  gas += rows * ").data

def tmplColsLitWith : List Char :=
  (";\n  \n  // Add per-column cost\n  gas += columns * ").data

def tmplColsLitNo : List Char :=
  (";\n  \n  // Add per-column cost (decoding)\n  gas += columns * ").data

/-- The interaction line of the with-interaction template (lines 251-252). -/
def tmplInterLit : List Char :=
  (";\n  \n  // Add row × column interaction (decoding cost scales with both)\n  gas += (rows * columns) * ").data

def tmplFilterLit : List Char :=
  (";\n  \n  // Add filter complexity cost\n  gas += filterBytes * ").data

def tmplOpsLit : List Char :=
  (";\n  \n  // Add operation-specific costs (relative to COUNT baseline)\n  const operationCosts = \x7b\n    \x27COUNT\x27: 0,  // baseline\n    \x27SUM\x27: ").data

def tmplAvgLit : List Char := (",\n    \x27AVG_P\x27: ").data

def tmplWSumLit : List Char := (",\n    \x27WEIGHTED_SUM\x27: ").data

def tmplMinLit : List Char := (",\n    \x27MIN\x27: ").data

def tmplMaxLit : List Char := (",\n    \x27MAX\x27: ").data

def tmplTail : List Char :=
  (",\n  \x7d;\n  \n  gas += operationCosts[operation];\n  \n  return Math.round(gas);\n\x7d\n\n// Example usage:\nconst estimatedGas = estimateJobGas(50, 15, \x27SUM\x27, 7);\nconsole.log(`Estimated gas: $\x7bestimatedGas.toLocaleString()\x7d`);\n").data

/-- The with-interaction code text (the f-string of lines 223-275). -/
def renderWith (intercept row_coef col_coef interaction_coef filter_coef
    opSum opAvg opWSum opMin opMax : ℚ) : String :=
  ⟨renderAlt tmplWith0
    [(intercept, tmplRowsLit), (row_coef, tmplColsLitWith),
     (col_coef, tmplInterLit), (interaction_coef, tmplFilterLit),
     (filter_coef, tmplOpsLit), (opSum, tmplAvgLit), (opAvg, tmplWSumLit),
     (opWSum, tmplMinLit), (opMin, tmplMaxLit), (opMax, tmplTail)]⟩

/-- The without-interaction code text (the f-string of lines 277-325). -/
def renderWithout (intercept row_coef col_coef filter_coef
    opSum opAvg opWSum opMin opMax : ℚ) : String :=
  ⟨renderAlt tmplNo0
    [(intercept, tmplRowsLit), (row_coef, tmplColsLitNo),
     (col_coef, tmplFilterLit), (filter_coef, tmplOpsLit),
     (opSum, tmplAvgLit), (opAvg, tmplWSumLit), (opWSum, tmplMinLit),
     (opMin, tmplMaxLit), (opMax, tmplTail)]⟩

/-- Embeds the coefficient lookups of lines 204-206 — the Coefficient cell of
the coef_df line whose Feature equals the given name, defaulted to 0 when the
feature is absent — and equally the `op_coefs.get(op, 0)` lookups of lines
215-219 and 260-264. -/
def lookupCoef (coef_df : List (String × ℚ)) (name : String) : ℚ :=
  match coef_df.find? (fun p => p.1 = name) with
  | some p => p.2
  | none => 0

/-- Embeds the check of line 210 that Rows_x_Columns is among the coef_df
Feature values. -/
def hasInteraction (coef_df : List (String × ℚ)) : Bool :=
  (coef_df.map Prod.fst).contains "Rows_x_Columns"

/-- Embeds `generate_estimator_code` (lines 194-332): selects one of the two
templates by the presence of the `Rows_x_Columns` feature and interpolates
the looked-up coefficients; the result is written to `estimateJobGas.ts`. -/
def generate_estimator_code (intercept : ℚ) (coef_df : List (String × ℚ)) :
    String :=
  let row_coef := lookupCoef coef_df "Rows"
  let col_coef := lookupCoef coef_df "Columns"
  let filter_coef := lookupCoef coef_df "FilterBytes"
  let interaction_coef := lookupCoef coef_df "Rows_x_Columns"
  let opSum := lookupCoef coef_df "Op_SUM"
  let opAvg := lookupCoef coef_df "Op_AVG_P"
  let opWSum := lookupCoef coef_df "Op_WEIGHTED_SUM"
  let opMin := lookupCoef coef_df "Op_MIN"
  let opMax := lookupCoef coef_df "Op_MAX"
  if hasInteraction coef_df then
    renderWith intercept row_coef col_coef interaction_coef filter_coef
      opSum opAvg opWSum opMin opMax
  else
    renderWithout intercept row_coef col_coef filter_coef
      opSum opAvg opWSum opMin opMax

/-- A file the script writes: the composite plot image or the generated
TypeScript text. -/
inductive FileData where
  | png (p : PlotData)
  | ts (code : String)
deriving DecidableEq, Repr

/-- Observable outcome of one invocation: the exit status, the printed lines
(abstracted, see the header), and the files written, in order. -/
structure RunResult where
  exitCode : Nat
  output : List String
  writes : List (String × FileData)
deriving DecidableEq, Repr

def usageLines : List String :=
  ["Usage: python analyze_gas_results.py <csv_file>",
   "Example: python analyze_gas_results.py gas_benchmark_results.csv"]

/-- The `try` body of `main` (lines 342-375) on an already-loaded data frame:
the pipeline stages in source order, any embedded exception short-circuiting
to exit status 1 with no file written. -/
def runPipeline (df : List Row) : RunResult :=
  let basic := analyze_basic_statistics df
  match analyze_per_row_costs df with
  | none => { exitCode := 1, output := ["Error"], writes := [] }
  | some per_row =>
    match build_regression_model df "TotalGas" true with
    | none => { exitCode := 1, output := ["Error"], writes := [] }
    | some (out1, fit) =>
      match build_regression_model df "PushRowTotal" true with
      | none => { exitCode := 1, output := ["Error"], writes := [] }
      | some (out2, _) =>
        let plot := visualize_results df fit.y_pred fit.coef_df
        let code := generate_estimator_code fit.intercept fit.coef_df
        { exitCode := 0
          output := ["Loaded " ++ toString df.length ++ " test cases"]
            ++ [toString (repr basic)]
            ++ per_row.map (fun p => p.1 ++ " " ++ toString p.2)
            ++ out1 ++ out2
            ++ ["Saved visualization to: gas_analysis.png",
                "Saved estimator function to: estimateJobGas.ts",
                "Analysis Complete!"]
          writes := [("gas_analysis.png", .png plot),
                     ("estimateJobGas.ts", .ts code)] }

/-- Embeds `main` (lines 334-384) over an explicit argument vector and file system:
a missing positional argument prints the usage lines and exits 1 before
touching the file system; a missing input file is the caught
`FileNotFoundError` of line 377, exiting 1; otherwise the pipeline runs. -/
def mainFn (argv : List String) (fs : String → Option (List Row)) : RunResult :=
  if argv.length < 2 then
    { exitCode := 1, output := usageLines, writes := [] }
  else
    let csv_path := argv.getD 1 ""
    match fs csv_path with
    | none =>
      { exitCode := 1
        output := ["Error: File \x27" ++ csv_path ++ "\x27 not found"]
        writes := [] }
    | some df => runPipeline df

/-- Concrete inputs used by the witness theorems. -/
def sampleRow : Row :=
  { operation := "COUNT", filterComplexity := "none", rows := 10, columns := 2,
    openJobGas := 5, pushRowTotal := 20, pushRowAvg := 2, finalizeGas := 1,
    totalGas := 26 }

def sampleRow2 : Row :=
  { sampleRow with operation := "SUM", rows := 20, totalGas := 50 }

def sampleDf : List Row := [sampleRow, sampleRow2]

def sampleFs : String → Option (List Row) :=
  fun p => if p = "gas_benchmark_results.csv" then some sampleDf else none

/-- A table with no COUNT row, for the C9 witness. -/
def noCountDf : List Row := [sampleRow2]

/-- A row with its `PushRowTotal` field cleared: two tables with equal
`stripPush` images agree on every column except `PushRowTotal` (frame
statement C10). -/
def stripPush (r : Row) : Row := { r with pushRowTotal := 0 }

lemma insertSorted_perm (a : String) (l : List String) :
    List.Perm (insertSorted a l) (a :: l) := by
  induction l with
  | nil => exact List.Perm.refl _
  | cons b bs ih =>
    unfold insertSorted
    by_cases hc : strLe a b = true
    · simp [hc]
    · simp only [hc, if_false]
      exact (ih.cons b).trans (List.Perm.swap a b bs)

lemma sortStrings_perm (l : List String) : List.Perm (sortStrings l) l := by
  induction l with
  | nil => exact List.Perm.refl _
  | cons a as ih =>
    unfold sortStrings
    exact (insertSorted_perm a (sortStrings as)).trans (ih.cons a)

lemma mem_sortedDistinct {x : String} {l : List String} :
    x ∈ sortedDistinct l ↔ x ∈ l := by
  unfold sortedDistinct
  rw [(sortStrings_perm l.dedup).mem_iff, List.mem_dedup]

lemma sortedDistinct_nodup (l : List String) : (sortedDistinct l).Nodup :=
  ((sortStrings_perm l.dedup).nodup_iff).mpr l.nodup_dedup

lemma lookup_map_pair_eq_none {a : String} {f : String → ℚ} {l : List String}
    (h : a ∉ l) : (l.map (fun k => (k, f k))).lookup a = none := by
  induction l with
  | nil => rfl
  | cons k ks ih =>
    simp only [List.mem_cons, not_or] at h
    have hak : (a == k) = false := beq_eq_false_iff_ne.mpr h.1
    simp [List.lookup, hak, ih h.2]

lemma lookup_map_pair_isSome {a : String} {f : String → ℚ} {l : List String}
    (h : a ∈ l) : ((l.map (fun k => (k, f k))).lookup a).isSome := by
  induction l with
  | nil => cases h
  | cons k ks ih =>
    rcases List.mem_cons.mp h with h1 | h2
    · subst h1; simp [List.lookup]
    · cases hak : a == k
      · simpa [List.lookup, hak] using ih h2
      · simp [List.lookup, hak]

/-- C3 formalised: `FilterBytes` is the fixed four-entry lookup on the
`FilterComplexity` label, and any other label yields NaN (`none`). -/
theorem c3_filter_bytes_map (r : Row) :
    filterBytes r =
      (if r.filterComplexity = "none" then some 0
       else if r.filterComplexity = "simple" then some 7
       else if r.filterComplexity = "medium" then some 15
       else if r.filterComplexity = "complex" then some 30
       else none) := by
  unfold filterBytes filter_bytecode_map
  by_cases h1 : r.filterComplexity = "none"
  · simp [List.lookup, h1]
  by_cases h2 : r.filterComplexity = "simple"
  · simp [List.lookup, h1, h2]
  by_cases h3 : r.filterComplexity = "medium"
  · simp [List.lookup, h1, h2, h3]
  by_cases h4 : r.filterComplexity = "complex"
  · simp [List.lookup, h1, h2, h3, h4]
  · have b1 : (r.filterComplexity == "none") = false := beq_eq_false_iff_ne.mpr h1
    have b2 : (r.filterComplexity == "simple") = false := beq_eq_false_iff_ne.mpr h2
    have b3 : (r.filterComplexity == "medium") = false := beq_eq_false_iff_ne.mpr h3
    have b4 : (r.filterComplexity == "complex") = false := beq_eq_false_iff_ne.mpr h4
    simp [List.lookup, b1, b2, b3, b4, h1, h2, h3, h4]

/-- C5 formalised: a missing input file gives exit status 1 and no file is
written. -/
theorem c5_missing_file (prog p : String) (fs : String → Option (List Row))
    (h : fs p = none) :
    (mainFn [prog, p] fs).exitCode = 1 ∧ (mainFn [prog, p] fs).writes = [] := by
  unfold mainFn
  simp [h]

theorem c5_missing_file_witness :
    ((fun _ : String => (none : Option (List Row))) "missing.csv" = none) ∧
    (mainFn ["analyze_gas_results.py", "missing.csv"]
        (fun _ => none)).exitCode = 1 ∧
    (mainFn ["analyze_gas_results.py", "missing.csv"] (fun _ => none)).writes = [] :=
  ⟨rfl, c5_missing_file "analyze_gas_results.py" "missing.csv" (fun _ => none) rfl⟩

/-- C8 formalised: with no positional argument the run prints exactly the
usage lines, exits 1 and performs no writes, and its outcome is independent
of the file system (no file is read). -/
theorem c8_no_argument (argv : List String) (fs : String → Option (List Row))
    (h : argv.length < 2) :
    mainFn argv fs = { exitCode := 1, output := usageLines, writes := [] } ∧
    ∀ fs', mainFn argv fs' = mainFn argv fs := by
  constructor
  · unfold mainFn; rw [if_pos h]
  · intro fs'; unfold mainFn; rw [if_pos h, if_pos h]

theorem c8_no_argument_witness :
    ([ "analyze_gas_results.py" ].length < 2) ∧
    mainFn ["analyze_gas_results.py"] sampleFs =
      { exitCode := 1, output := usageLines, writes := [] } ∧
    mainFn ["analyze_gas_results.py"] (fun _ => none) =
      mainFn ["analyze_gas_results.py"] sampleFs := by
  refine ⟨by decide, ?_, ?_⟩
  · exact (c8_no_argument ["analyze_gas_results.py"] sampleFs (by decide)).1
  · exact (c8_no_argument ["analyze_gas_results.py"] sampleFs (by decide)).2 _

/-- C4 formalised: the whole run — in particular the generated estimator text
written to `estimateJobGas.ts` — is a deterministic function of the input
file contents: two file systems agreeing on the input path produce
identical results. -/
theorem c4_deterministic (prog p : String)
    (fs1 fs2 : String → Option (List Row)) (h : fs1 p = fs2 p) :
    mainFn [prog, p] fs1 = mainFn [prog, p] fs2 := by
  unfold mainFn
  simp only [List.length_cons, List.length_nil]
  rw [show ([prog, p].getD 1 "") = p from rfl]
  rw [h]

theorem c4_deterministic_witness :
    (sampleFs "gas_benchmark_results.csv" =
      (fun _ : String => some sampleDf) "gas_benchmark_results.csv") ∧
    mainFn ["analyze_gas_results.py", "gas_benchmark_results.csv"] sampleFs =
      mainFn ["analyze_gas_results.py", "gas_benchmark_results.csv"]
        (fun _ => some sampleDf) :=
  ⟨rfl, c4_deterministic "analyze_gas_results.py" "gas_benchmark_results.csv"
    sampleFs (fun _ => some sampleDf) rfl⟩

lemma string_ext {a b : String} (h : a.data = b.data) : a = b := by
  cases a; cases b; exact congrArg String.mk (by simpa using h)

lemma op_prefix_inj {a b : String} (h : "Op_" ++ a = "Op_" ++ b) : a = b := by
  have h2 := congrArg String.data h
  rw [String.data_append, String.data_append] at h2
  exact string_ext (List.append_cancel_left h2)

lemma opCount_mem_dummies (df : List Row) :
    ("Op_COUNT" ∈ (operationDummies df).map Prod.fst) ↔
      "COUNT" ∈ df.map Row.operation := by
  unfold operationDummies
  rw [List.map_map]
  rw [show (Prod.fst ∘ fun v => ("Op_" ++ v, dummyCol df v)) =
      fun v => "Op_" ++ v from rfl]
  rw [List.mem_map]
  constructor
  · rintro ⟨v, hv, he⟩
    have hv2 : v = "COUNT" := op_prefix_inj (he.trans (by decide))
    subst hv2
    exact mem_sortedDistinct.mp hv
  · intro hc
    exact ⟨"COUNT", mem_sortedDistinct.mpr hc, by decide⟩

lemma buildX_eq_none_iff (df : List Row) (incl : Bool) :
    buildX df incl = none ↔ "COUNT" ∉ df.map Row.operation := by
  unfold buildX
  by_cases h : "COUNT" ∈ df.map Row.operation
  · rw [if_pos ((opCount_mem_dummies df).mpr h)]; simp [h]
  · rw [if_neg (fun hm => h ((opCount_mem_dummies df).mp hm))]; simp [h]

lemma perRow_none (df : List Row) (h : "COUNT" ∉ df.map Row.operation) :
    analyze_per_row_costs df = none := by
  unfold analyze_per_row_costs
  have h2 : "COUNT" ∉ sortedDistinct (df.map Row.operation) :=
    fun hc => h (mem_sortedDistinct.mp hc)
  simp [lookup_map_pair_eq_none h2]

/-- C9 formalised: on a table with no COUNT row (the empty table included)
both fallible library calls the claim names fail — dropping the `Op_COUNT`
dummy and the COUNT baseline lookup — and the run exits 1 having written
neither output file. -/
theorem c9_no_count_row (prog p : String) (fs : String → Option (List Row))
    (df : List Row) (h1 : fs p = some df)
    (h2 : "COUNT" ∉ df.map Row.operation) :
    analyze_per_row_costs df = none ∧
    (∀ incl, buildX df incl = none) ∧
    (mainFn [prog, p] fs).exitCode = 1 ∧ (mainFn [prog, p] fs).writes = [] := by
  refine ⟨perRow_none df h2, fun incl => (buildX_eq_none_iff df incl).mpr h2, ?_⟩
  have hm : mainFn [prog, p] fs = runPipeline df := by
    unfold mainFn
    rw [if_neg (by simp)]
    show (match fs p with
      | none => ({ exitCode := 1,
                   output := ["Error: File \x27" ++ p ++ "\x27 not found"],
                   writes := [] } : RunResult)
      | some d => runPipeline d) = runPipeline df
    rw [h1]
  have hp : runPipeline df = { exitCode := 1, output := ["Error"], writes := [] } := by
    unfold runPipeline
    rw [perRow_none df h2]
  rw [hm, hp]
  exact ⟨rfl, rfl⟩

theorem c9_no_count_row_witness :
    ((fun q : String => if q = "x.csv" then some noCountDf else none) "x.csv"
        = some noCountDf) ∧
    ("COUNT" ∉ noCountDf.map Row.operation) ∧
    analyze_per_row_costs noCountDf = none ∧
    (mainFn ["analyze_gas_results.py", "x.csv"]
        (fun q => if q = "x.csv" then some noCountDf else none)).exitCode = 1 := by
  have h := c9_no_count_row "analyze_gas_results.py" "x.csv"
    (fun q => if q = "x.csv" then some noCountDf else none) noCountDf
    (by decide) (by decide)
  exact ⟨by decide, by decide, h.1, h.2.2.1⟩

lemma build_guard_false_iff (df : List Row) :
    ((df.isEmpty || df.any fun r => (filterBytes r).isNone) = false) ↔
      (df ≠ [] ∧ ∀ r ∈ df, (filterBytes r).isSome) := by
  rw [Bool.or_eq_false_iff]
  constructor
  · rintro ⟨he, ha⟩
    refine ⟨fun hnil => by simp [hnil] at he, fun r hr => ?_⟩
    have h3 := (List.any_eq_false.mp ha) r hr
    rwa [Bool.not_eq_true, Option.isNone_eq_false_iff] at h3
  · rintro ⟨he, ha⟩
    refine ⟨?_, List.any_eq_false.mpr fun r hr => ?_⟩
    · cases df with
      | nil => exact absurd rfl he
      | cons a l => rfl
    · rw [Bool.not_eq_true, Option.isNone_eq_false_iff]
      exact ha r hr

/-- C7 formalised: whether `build_regression_model` succeeds is equivalent to
the structural conditions on the table (a COUNT row exists and every
FilterComplexity label is mapped) — the R²/MAPE threshold comparisons never
fail the call — and the fit it returns is exactly `regressionFit`, computed
independently of those printed diagnostics. -/
theorem c7_thresholds_diagnostic_only (df : List Row) (target : String)
    (incl : Bool) :
    ((build_regression_model df target incl).isSome ↔
      ("COUNT" ∈ df.map Row.operation ∧ ∀ r ∈ df, (filterBytes r).isSome)) ∧
    (∀ out fit, build_regression_model df target incl = some (out, fit) →
      fit = regressionFit df target incl) := by
  by_cases hc : "COUNT" ∈ df.map Row.operation
  · have hx : buildX df incl ≠ none :=
      fun hn => ((buildX_eq_none_iff df incl).mp hn) hc
    rcases Option.ne_none_iff_exists.mp hx with ⟨X, hX⟩
    have hb : build_regression_model df target incl =
        (if df.isEmpty || df.any (fun r => (filterBytes r).isNone) then none
         else
          let fit := regressionFit df target incl
          let r2 := r2_score (df.map (targetColumn target)) fit.y_pred
          let mape := mape_pct (df.map (targetColumn target)) fit.y_pred
          some (thresholdDiag r2 mape
                  ++ ["Model Coefficients:", "  Intercept: " ++ toString fit.intercept]
                  ++ fit.coef_df.map (fun q => "  " ++ q.1 ++ " " ++ toString q.2),
                fit)) := by
      unfold build_regression_model
      rw [← hX]
    have hdf : df ≠ [] := by
      intro hnil
      rw [hnil] at hc
      simp at hc
    constructor
    · rw [hb]
      by_cases hguard : (df.isEmpty || df.any fun r => (filterBytes r).isNone) = true
      · rw [if_pos hguard]
        simp only [Option.isSome_none, Bool.false_eq_true, false_iff, not_and]
        intro _ hall
        have h2 := (build_guard_false_iff df).mpr ⟨hdf, hall⟩
        rw [h2] at hguard
        cases hguard
      · rw [if_neg hguard]
        have hgf : (df.isEmpty || df.any fun r => (filterBytes r).isNone) = false :=
          (Bool.not_eq_true _) ▸ hguard
        simp only [Option.isSome_some, true_iff]
        exact ⟨hc, ((build_guard_false_iff df).mp hgf).2⟩
    · intro out fit heq
      rw [hb] at heq
      by_cases hguard : (df.isEmpty || df.any fun r => (filterBytes r).isNone) = true
      · rw [if_pos hguard] at heq
        cases heq
      · rw [if_neg hguard] at heq
        simp only [Option.some.injEq, Prod.mk.injEq] at heq
        exact heq.2.symm
  · have hx := (buildX_eq_none_iff df incl).mpr hc
    have hb : build_regression_model df target incl = none := by
      unfold build_regression_model
      rw [hx]
    constructor
    · rw [hb]; simp [hc]
    · intro out fit heq; rw [hb] at heq; cases heq

theorem c7_thresholds_witness :
    ("COUNT" ∈ sampleDf.map Row.operation ∧
      ∀ r ∈ sampleDf, (filterBytes r).isSome) ∧
    (build_regression_model sampleDf "TotalGas" false).isSome ∧
    ∃ out fit, build_regression_model sampleDf "TotalGas" false = some (out, fit) ∧
      fit = regressionFit sampleDf "TotalGas" false := by
  have hcond : "COUNT" ∈ sampleDf.map Row.operation ∧
      ∀ r ∈ sampleDf, (filterBytes r).isSome := by decide
  have h1 := (c7_thresholds_diagnostic_only sampleDf "TotalGas" false).1.mpr hcond
  rcases Option.isSome_iff_exists.mp h1 with ⟨pair, hp⟩
  exact ⟨hcond, h1, pair.1, pair.2, hp,
    (c7_thresholds_diagnostic_only sampleDf "TotalGas" false).2 pair.1 pair.2 hp⟩

lemma mem_map_pair {α : Type} {x : String} {y : α} {f : String → α}
    {l : List String} :
    (x, y) ∈ l.map (fun k => (k, f k)) ↔ x ∈ l ∧ y = f x := by
  rw [List.mem_map]
  constructor
  · rintro ⟨k, hk, he⟩
    cases he
    exact ⟨hk, rfl⟩
  · rintro ⟨hx, hy⟩
    exact ⟨x, hx, by rw [hy]⟩

/-- C6, counterexample to the claim as stated: the FilterComplexity grouping
of `analyze_basic_statistics` does not compute a standard deviation (the
source line 57 requests only mean/min/max), exhibited on a concrete table. -/
theorem c6_std_counterexample :
    ¬ (∀ v ∈ sampleDf.map Row.filterComplexity,
        ∃ p ∈ (analyze_basic_statistics sampleDf).fcTable,
          p.1 = v ∧ "std" ∈ p.2.map Prod.fst) := by
  decide

/-- C6 as amended: per distinct Operation value the reporter computes the
mean, min, max and standard deviation of TotalGas, but per distinct
FilterComplexity value only the mean, min and max — no standard deviation. -/
theorem c6_grouped_statistics (df : List Row) :
    (∀ v, (∃ vals, (v, vals) ∈ (analyze_basic_statistics df).opTable) ↔
        v ∈ df.map Row.operation) ∧
    (∀ v vals, (v, vals) ∈ (analyze_basic_statistics df).opTable →
      vals = [("mean", StatVal.val (qmean (groupVals Row.operation df v))),
              ("min", StatVal.val (qminD (groupVals Row.operation df v))),
              ("max", StatVal.val (qmaxD (groupVals Row.operation df v))),
              ("std", match sampleVar (groupVals Row.operation df v) with
                      | some s => StatVal.sqrtVal s
                      | none => StatVal.na)]) ∧
    (∀ v, (∃ vals, (v, vals) ∈ (analyze_basic_statistics df).fcTable) ↔
        v ∈ df.map Row.filterComplexity) ∧
    (∀ v vals, (v, vals) ∈ (analyze_basic_statistics df).fcTable →
      (vals = [("mean", StatVal.val (qmean (groupVals Row.filterComplexity df v))),
               ("min", StatVal.val (qminD (groupVals Row.filterComplexity df v))),
               ("max", StatVal.val (qmaxD (groupVals Row.filterComplexity df v)))] ∧
       ∀ x, ("std", x) ∉ vals)) := by
  refine ⟨fun v => ?_, fun v vals h => ?_, fun v => ?_, fun v vals h => ?_⟩
  · constructor
    · rintro ⟨vals, h⟩
      exact mem_sortedDistinct.mp (mem_map_pair.mp h).1
    · intro hv
      exact ⟨_, mem_map_pair.mpr ⟨mem_sortedDistinct.mpr hv, rfl⟩⟩
  · rw [(mem_map_pair.mp h).2]
    rfl
  · constructor
    · rintro ⟨vals, h⟩
      exact mem_sortedDistinct.mp (mem_map_pair.mp h).1
    · intro hv
      exact ⟨_, mem_map_pair.mpr ⟨mem_sortedDistinct.mpr hv, rfl⟩⟩
  · have hv : vals = fcAggList.map
        (fun s => (s, aggValue s (groupVals Row.filterComplexity df v))) :=
      (mem_map_pair.mp h).2
    have he : vals =
        [("mean", StatVal.val (qmean (groupVals Row.filterComplexity df v))),
         ("min", StatVal.val (qminD (groupVals Row.filterComplexity df v))),
         ("max", StatVal.val (qmaxD (groupVals Row.filterComplexity df v)))] := by
      rw [hv]; rfl
    refine ⟨he, fun x hx => ?_⟩
    rw [he] at hx
    simp only [List.mem_cons, List.not_mem_nil, or_false, Prod.mk.injEq] at hx
    rcases hx with ⟨hs, _⟩ | ⟨hs, _⟩ | ⟨hs, _⟩ <;> exact absurd hs (by decide)

theorem c6_grouped_statistics_witness :
    (∃ vals, ("COUNT", vals) ∈ (analyze_basic_statistics sampleDf).opTable) ∧
    ∃ vals, ("none", vals) ∈ (analyze_basic_statistics sampleDf).fcTable ∧
      ∀ x, ("std", x) ∉ vals := by
  have h := c6_grouped_statistics sampleDf
  refine ⟨(h.1 "COUNT").mpr (by decide), ?_⟩
  rcases (h.2.2.1 "none").mpr (by decide) with ⟨vals, hv⟩
  exact ⟨vals, hv, (h.2.2.2 "none" vals hv).2⟩

lemma exists_snd_iff_mem_map_fst {α β : Type} {c : α} {X : List (α × β)} :
    (∃ col, (c, col) ∈ X) ↔ c ∈ X.map Prod.fst := by
  rw [List.mem_map]
  constructor
  · rintro ⟨col, h⟩
    exact ⟨(c, col), h, rfl⟩
  · rintro ⟨p, hp, he⟩
    exact ⟨p.2, by rwa [show p = (c, p.2) from by rw [← he]] at hp⟩

lemma opPrefix_data (v : String) :
    ("Op_" ++ v).data = 'O' :: 'p' :: '_' :: v.data := by
  rw [String.data_append]
  rfl

lemma ne_opPrefix_of_head {s : String} (v : String)
    (hs : s.data.head? ≠ some 'O') : s ≠ "Op_" ++ v := by
  intro he
  apply hs
  rw [he, opPrefix_data]
  rfl

lemma zipWith_map_same {α β γ δ : Type} (f : β → γ → δ) (g : α → β)
    (h : α → γ) (l : List α) :
    List.zipWith f (l.map g) (l.map h) = l.map fun x => f (g x) (h x) := by
  induction l with
  | nil => rfl
  | cons a t ih => simp [ih]

lemma buildX_eq_some (df : List Row) (incl : Bool)
    (h : "COUNT" ∈ df.map Row.operation) :
    buildX df incl = some (baseX df incl
      ++ ((operationDummies df).filter (fun p => p.1 ≠ "Op_COUNT")).map
          (fun p => (p.1, p.2.map some))) := by
  unfold buildX
  rw [if_pos ((opCount_mem_dummies df).mpr h)]

lemma dums_map_fst (df : List Row) :
    (((operationDummies df).filter (fun p => p.1 ≠ "Op_COUNT")).map
        (fun p => (p.1, p.2.map some))).map Prod.fst =
      ((opNames df).filter (fun v => "Op_" ++ v ≠ "Op_COUNT")).map
        (fun v => "Op_" ++ v) := by
  unfold operationDummies
  rw [List.map_map, List.filter_map, List.map_map]
  rfl

lemma mem_dums_names (df : List Row) (c : String) :
    (c ∈ ((opNames df).filter (fun v => "Op_" ++ v ≠ "Op_COUNT")).map
        (fun v => "Op_" ++ v)) ↔
      ∃ v, v ∈ df.map Row.operation ∧ v ≠ "COUNT" ∧ c = "Op_" ++ v := by
  rw [List.mem_map]
  constructor
  · rintro ⟨v, hv, he⟩
    rw [List.mem_filter] at hv
    refine ⟨v, mem_sortedDistinct.mp hv.1, ?_, he.symm⟩
    intro hvc
    have := of_decide_eq_true hv.2
    exact this (by rw [hvc]; decide)
  · rintro ⟨v, hv, hvc, he⟩
    refine ⟨v, List.mem_filter.mpr ⟨mem_sortedDistinct.mpr hv, ?_⟩, he.symm⟩
    exact decide_eq_true (fun hp => hvc (op_prefix_inj (hp.trans (by decide))))

lemma baseX_map_fst (df : List Row) (incl : Bool) :
    (baseX df incl).map Prod.fst =
      ["Rows", "Columns", "FilterBytes"]
        ++ (if incl then ["Rows_x_Columns"] else []) := by
  unfold baseX
  cases incl <;> simp

/-- C1 formalised: when a COUNT row exists (so the `Op_COUNT` drop succeeds)
the feature matrix has exactly the columns Rows, Columns, FilterBytes, the
`Rows_x_Columns` elementwise product exactly when the interaction flag is
set, and one indicator column `Op_v` — valued 1 on rows with operation `v`
and 0 elsewhere — for each distinct operation value `v` except COUNT; no
column name repeats. -/
theorem c1_feature_matrix (df : List Row) (incl : Bool)
    (h : "COUNT" ∈ df.map Row.operation) :
    ∃ X, buildX df incl = some X ∧
      (∀ c, (∃ col, (c, col) ∈ X) ↔
        (c = "Rows" ∨ c = "Columns" ∨ c = "FilterBytes" ∨
         (incl = true ∧ c = "Rows_x_Columns") ∨
         ∃ v, v ∈ df.map Row.operation ∧ v ≠ "COUNT" ∧ c = "Op_" ++ v)) ∧
      (X.map Prod.fst).Nodup ∧
      (incl = true →
        ("Rows_x_Columns",
          List.zipWith (fun a b => Option.bind a (fun x => Option.map (fun y => x * y) b))
            (df.map (fun r => some ((r.rows : ℚ))))
            (df.map (fun r => some ((r.columns : ℚ))))) ∈ X) ∧
      (∀ v, v ∈ df.map Row.operation → v ≠ "COUNT" →
        ("Op_" ++ v,
          df.map (fun r => some (if Row.operation r = v then (1 : ℚ) else 0))) ∈ X) := by
  refine ⟨_, buildX_eq_some df incl h, ?_, ?_, ?_, ?_⟩
  · intro c
    rw [exists_snd_iff_mem_map_fst, List.map_append, dums_map_fst,
      List.mem_append, mem_dums_names, baseX_map_fst]
    cases incl <;> simp <;> tauto
  · rw [List.map_append, dums_map_fst, baseX_map_fst, List.nodup_append]
    refine ⟨by cases incl <;> decide, ?_, ?_⟩
    · exact List.Nodup.map (fun a b hab => op_prefix_inj hab)
        (((sortedDistinct_nodup _)).filter _)
    · intro a ha hb
      rw [List.mem_map] at hb
      rcases hb with ⟨v, _, he⟩
      rw [← he] at ha
      have hOp : ∀ s : String, s ∈
          (["Rows", "Columns", "FilterBytes"]
            ++ (if incl then ["Rows_x_Columns"] else [])) →
          ∀ w : String, s ≠ "Op_" ++ w := by
        intro s hs w
        cases incl
        · simp at hs
          rcases hs with rfl | rfl | rfl <;>
            exact ne_opPrefix_of_head w (by decide)
        · simp at hs
          rcases hs with rfl | rfl | rfl | rfl <;>
            exact ne_opPrefix_of_head w (by decide)
      exact hOp _ ha v rfl
  · intro hi
    subst hi
    rw [zipWith_map_same]
    apply List.mem_append_left
    unfold baseX
    simp
  · intro v hv hvc
    apply List.mem_append_right
    rw [List.mem_map]
    refine ⟨("Op_" ++ v, dummyCol df v), List.mem_filter.mpr ⟨?_, ?_⟩, ?_⟩
    · unfold operationDummies
      exact List.mem_map.mpr ⟨v, mem_sortedDistinct.mpr hv, rfl⟩
    · exact decide_eq_true (fun hp => hvc (op_prefix_inj (hp.trans (by decide))))
    · rw [show (dummyCol df v).map some =
          df.map (fun r => some (if Row.operation r = v then (1 : ℚ) else 0)) from by
        unfold dummyCol
        rw [List.map_map]
        rfl]

theorem c1_feature_matrix_witness :
    ("COUNT" ∈ sampleDf.map Row.operation) ∧
    ∃ X, buildX sampleDf true = some X ∧
      (∃ col, ("Op_SUM", col) ∈ X) ∧
      ("Rows_x_Columns",
        List.zipWith (fun a b => Option.bind a (fun x => Option.map (fun y => x * y) b))
          (sampleDf.map (fun r => some ((r.rows : ℚ))))
          (sampleDf.map (fun r => some ((r.columns : ℚ))))) ∈ X := by
  have h := c1_feature_matrix sampleDf true (by decide)
  rcases h with ⟨X, hX, hnames, _, hinter, hdum⟩
  refine ⟨by decide, X, hX, ?_, hinter rfl⟩
  exact (hnames "Op_SUM").mpr (Or.inr (Or.inr (Or.inr (Or.inr
    ⟨"SUM", by decide, by decide, rfl⟩))))

lemma map_strip_eq {α : Type} (df1 df2 : List Row)
    (h : df1.map stripPush = df2.map stripPush) (g : Row → α)
    (hg : ∀ r, g (stripPush r) = g r) : df1.map g = df2.map g := by
  have e : ∀ df : List Row, df.map g = (df.map stripPush).map g := by
    intro df
    rw [List.map_map]
    exact List.map_congr_left (fun r _ => (hg r).symm)
  rw [e df1, e df2, h]

lemma filter_map_strip {α : Type} (df1 df2 : List Row)
    (h : df1.map stripPush = df2.map stripPush) (p : Row → Bool) (v : Row → α)
    (hp : ∀ r, p (stripPush r) = p r) (hv : ∀ r, v (stripPush r) = v r) :
    (df1.filter p).map v = (df2.filter p).map v := by
  have hp' : p ∘ stripPush = p := funext hp
  have hv' : v ∘ stripPush = v := funext hv
  have e : ∀ df : List Row,
      ((df.map stripPush).filter p).map v = (df.filter p).map v := by
    intro df
    rw [List.filter_map, List.map_map, hp', hv']
  rw [← e df1, ← e df2, h]

lemma strip_ops (df1 df2 : List Row)
    (h : df1.map stripPush = df2.map stripPush) :
    df1.map Row.operation = df2.map Row.operation :=
  map_strip_eq df1 df2 h Row.operation (fun _ => rfl)

lemma strip_perRow (df1 df2 : List Row)
    (h : df1.map stripPush = df2.map stripPush) :
    analyze_per_row_costs df1 = analyze_per_row_costs df2 := by
  unfold analyze_per_row_costs
  have hper : (sortedDistinct (df1.map Row.operation)).map
      (fun k => (k, qmean ((df1.filter (fun r => Row.operation r = k)).map Row.pushRowAvg))) =
      (sortedDistinct (df2.map Row.operation)).map
      (fun k => (k, qmean ((df2.filter (fun r => Row.operation r = k)).map Row.pushRowAvg))) := by
    rw [strip_ops df1 df2 h]
    apply List.map_congr_left
    intro k _
    rw [filter_map_strip df1 df2 h (fun r => decide (Row.operation r = k))
      Row.pushRowAvg (fun r => rfl) (fun r => rfl)]
  rw [hper]

lemma strip_baseX (df1 df2 : List Row)
    (h : df1.map stripPush = df2.map stripPush) (incl : Bool) :
    baseX df1 incl = baseX df2 incl := by
  unfold baseX
  rw [map_strip_eq df1 df2 h (fun r => some ((r.rows : ℚ))) (fun _ => rfl),
    map_strip_eq df1 df2 h (fun r => some ((r.columns : ℚ))) (fun _ => rfl),
    map_strip_eq df1 df2 h filterBytes (fun _ => rfl)]
  cases incl
  · rfl
  · rw [map_strip_eq df1 df2 h
      (fun r => some ((r.rows : ℚ) * (r.columns : ℚ))) (fun _ => rfl)]

lemma strip_opNames (df1 df2 : List Row)
    (h : df1.map stripPush = df2.map stripPush) :
    opNames df1 = opNames df2 := by
  unfold opNames
  rw [strip_ops df1 df2 h]

lemma strip_operationDummies (df1 df2 : List Row)
    (h : df1.map stripPush = df2.map stripPush) :
    operationDummies df1 = operationDummies df2 := by
  unfold operationDummies
  rw [strip_opNames df1 df2 h]
  apply List.map_congr_left
  intro v _
  rw [show dummyCol df1 v = dummyCol df2 v from
    map_strip_eq df1 df2 h _ (fun _ => rfl)]

lemma strip_buildX (df1 df2 : List Row)
    (h : df1.map stripPush = df2.map stripPush) (incl : Bool) :
    buildX df1 incl = buildX df2 incl := by
  unfold buildX
  rw [strip_operationDummies df1 df2 h, strip_baseX df1 df2 h incl]

lemma strip_guard (df1 df2 : List Row)
    (h : df1.map stripPush = df2.map stripPush) :
    (df1.isEmpty || df1.any fun r => (filterBytes r).isNone) =
      (df2.isEmpty || df2.any fun r => (filterBytes r).isNone) := by
  have hlen : df1.length = df2.length := by
    have := congrArg List.length h
    simpa using this
  have he : df1.isEmpty = df2.isEmpty := by
    rw [Bool.eq_iff_iff, List.isEmpty_iff, List.isEmpty_iff]
    constructor
    · intro h1
      rw [h1] at hlen
      exact List.length_eq_zero.mp hlen.symm
    · intro h2
      rw [h2] at hlen
      exact List.length_eq_zero.mp hlen
  have hmap := map_strip_eq df1 df2 h
    (fun r => (filterBytes r).isNone) (fun _ => rfl)
  have ha : (df1.any fun r => (filterBytes r).isNone) =
      (df2.any fun r => (filterBytes r).isNone) := by
    have e : ∀ df : List Row, (df.any fun r => (filterBytes r).isNone) =
        ((df.map fun r => (filterBytes r).isNone).any fun b => b) := by
      intro df
      induction df with
      | nil => rfl
      | cons a t ih =>
        simp only [List.any_cons, List.map_cons]
        rw [ih]
    rw [e df1, e df2, hmap]
  rw [he, ha]

lemma strip_designRows (df1 df2 : List Row)
    (h : df1.map stripPush = df2.map stripPush) (incl : Bool) :
    designRows df1 incl = designRows df2 incl := by
  unfold designRows
  rw [strip_opNames df1 df2 h]
  exact map_strip_eq df1 df2 h _ (fun _ => rfl)

lemma strip_fit_totalGas (df1 df2 : List Row)
    (h : df1.map stripPush = df2.map stripPush) (incl : Bool) :
    regressionFit df1 "TotalGas" incl = regressionFit df2 "TotalGas" incl := by
  unfold regressionFit featureNamesD
  rw [strip_designRows df1 df2 h incl, strip_opNames df1 df2 h,
    map_strip_eq df1 df2 h (targetColumn "TotalGas") (fun _ => rfl)]

lemma strip_build_totalGas (df1 df2 : List Row)
    (h : df1.map stripPush = df2.map stripPush) :
    build_regression_model df1 "TotalGas" true =
      build_regression_model df2 "TotalGas" true := by
  unfold build_regression_model
  rw [strip_buildX df1 df2 h true, strip_guard df1 df2 h,
    strip_fit_totalGas df1 df2 h true,
    map_strip_eq df1 df2 h (targetColumn "TotalGas") (fun _ => rfl)]

lemma strip_build2_isSome (df1 df2 : List Row)
    (h : df1.map stripPush = df2.map stripPush) :
    (build_regression_model df1 "PushRowTotal" true).isSome =
      (build_regression_model df2 "PushRowTotal" true).isSome := by
  unfold build_regression_model
  rw [strip_buildX df1 df2 h true, strip_guard df1 df2 h]
  cases buildX df2 true with
  | none => rfl
  | some X =>
    cases (df2.isEmpty || df2.any fun r => (filterBytes r).isNone) <;> rfl

lemma strip_visualize (df1 df2 : List Row)
    (h : df1.map stripPush = df2.map stripPush) (yp : List ℚ)
    (cd : List (String × ℚ)) :
    visualize_results df1 yp cd = visualize_results df2 yp cd := by
  unfold visualize_results
  have hact := map_strip_eq df1 df2 h Row.totalGas (fun _ => rfl)
  have hby : (sortedDistinct (df1.map Row.operation)).map
      (fun k => (k, groupVals Row.operation df1 k)) =
      (sortedDistinct (df2.map Row.operation)).map
      (fun k => (k, groupVals Row.operation df2 k)) := by
    rw [strip_ops df1 df2 h]
    apply List.map_congr_left
    intro k _
    unfold groupVals
    rw [filter_map_strip df1 df2 h (fun r => decide (Row.operation r = k))
      Row.totalGas (fun _ => rfl) (fun _ => rfl)]
  have hsc : (uniqueFirst (df1.map Row.operation)).map
      (fun op => (op, (df1.filter (fun r => Row.operation r = op)).map
        (fun r => ((r.rows : ℚ), r.totalGas)))) =
      (uniqueFirst (df2.map Row.operation)).map
      (fun op => (op, (df2.filter (fun r => Row.operation r = op)).map
        (fun r => ((r.rows : ℚ), r.totalGas)))) := by
    rw [strip_ops df1 df2 h]
    apply List.map_congr_left
    intro op _
    rw [filter_map_strip df1 df2 h (fun r => decide (Row.operation r = op))
      (fun r => ((r.rows : ℚ), r.totalGas)) (fun _ => rfl) (fun _ => rfl)]
  rw [hact, hby, hsc]

/-- C10 formalised: the files the pipeline writes — the plot image and the
generated estimator code — are unchanged by arbitrary changes to the
`PushRowTotal` column (the target of the second regression): the results of
the second fit are discarded.  Two tables equal after clearing `PushRowTotal`
produce identical writes. -/
theorem c10_second_fit_no_output_effect (df1 df2 : List Row)
    (h : df1.map stripPush = df2.map stripPush) :
    (runPipeline df1).writes = (runPipeline df2).writes := by
  unfold runPipeline
  rw [strip_perRow df1 df2 h, strip_build_totalGas df1 df2 h]
  cases analyze_per_row_costs df2 with
  | none => rfl
  | some per_row =>
    cases build_regression_model df2 "TotalGas" true with
    | none => rfl
    | some pr1 =>
      have hiso := strip_build2_isSome df1 df2 h
      cases o1 : build_regression_model df1 "PushRowTotal" true with
      | none =>
        cases o2 : build_regression_model df2 "PushRowTotal" true with
        | none => rfl
        | some pr2b =>
          rw [o1, o2] at hiso
          cases hiso
      | some pr2a =>
        cases o2 : build_regression_model df2 "PushRowTotal" true with
        | none =>
          rw [o1, o2] at hiso
          cases hiso
        | some pr2b =>
          cases pr1 with
          | mk out1 fit =>
            show [("gas_analysis.png",
                    FileData.png (visualize_results df1 fit.y_pred fit.coef_df)),
                  ("estimateJobGas.ts",
                    FileData.ts (generate_estimator_code fit.intercept fit.coef_df))] =
                 [("gas_analysis.png",
                    FileData.png (visualize_results df2 fit.y_pred fit.coef_df)),
                  ("estimateJobGas.ts",
                    FileData.ts (generate_estimator_code fit.intercept fit.coef_df))]
            rw [strip_visualize df1 df2 h fit.y_pred fit.coef_df]

theorem c10_second_fit_witness :
    (sampleDf.map stripPush =
      (sampleDf.map (fun r => { r with pushRowTotal := r.pushRowTotal + 7 })).map
        stripPush) ∧
    (runPipeline sampleDf).writes =
      (runPipeline (sampleDf.map
        (fun r => { r with pushRowTotal := r.pushRowTotal + 7 }))).writes := by
  have he : sampleDf.map stripPush =
      (sampleDf.map (fun r => { r with pushRowTotal := r.pushRowTotal + 7 })).map
        stripPush := by decide
  exact ⟨he, c10_second_fit_no_output_effect _ _ he⟩

lemma digit_isNum (m : Nat) (hm : m < 10) :
    isNumChar (Char.ofNat (48 + m)) = true := by
  interval_cases m <;> decide

lemma natDigitsAux_isNum (fuel : Nat) :
    ∀ n, ∀ c ∈ natDigitsAux fuel n, isNumChar c = true := by
  induction fuel with
  | zero => intro n c hc; cases hc
  | succ f ih =>
    intro n c hc
    unfold natDigitsAux at hc
    by_cases hn : n < 10
    · rw [if_pos hn] at hc
      rw [List.mem_singleton] at hc
      subst hc
      exact digit_isNum n hn
    · rw [if_neg hn] at hc
      rcases List.mem_append.mp hc with h1 | h1
      · exact ih _ c h1
      · rw [List.mem_singleton] at h1
        subst h1
        exact digit_isNum (n % 10) (Nat.mod_lt _ (by norm_num))

lemma fmt0_isNum (q : ℚ) : ∀ c ∈ fmt0 q, isNumChar c = true := by
  unfold fmt0 intChars natDigits
  intro c hc
  by_cases hi : roundHalfEven q < 0
  · rw [if_pos hi] at hc
    rcases List.mem_cons.mp hc with h1 | h1
    · subst h1; decide
    · exact natDigitsAux_isNum _ _ c h1
  · rw [if_neg hi] at hc
    exact natDigitsAux_isNum _ _ c hc

lemma natDigitsAux_succ_ne_nil (f n : Nat) : natDigitsAux (f + 1) n ≠ [] := by
  unfold natDigitsAux
  by_cases hn : n < 10
  · rw [if_pos hn]; exact List.cons_ne_nil _ _
  · rw [if_neg hn]
    intro hnil
    exact List.cons_ne_nil _ _ (List.append_eq_nil.mp hnil).2

lemma fmt0_ne_nil (q : ℚ) : fmt0 q ≠ [] := by
  unfold fmt0 intChars natDigits
  by_cases hi : roundHalfEven q < 0
  · rw [if_pos hi]; exact List.cons_ne_nil _ _
  · rw [if_neg hi]; exact natDigitsAux_succ_ne_nil _ _

/-- A nonempty pattern that shares no character with the middle block `b`
cannot straddle it: an occurrence inside `a ++ b ++ c` lies wholly inside
`a` or wholly inside `c`. -/
lemma infix_middle {pat a b c : List Char} (hpat : pat ≠ []) (hb : b ≠ [])
    (hdisj : ∀ x ∈ pat, ∀ y ∈ b, x ≠ y) (h : pat <:+: (a ++ b ++ c)) :
    pat <:+: a ∨ pat <:+: c := by
  rcases h with ⟨s, t, heq⟩
  rw [List.append_assoc a b c] at heq
  rw [List.append_assoc s pat t] at heq
  by_cases h1 : s.length + pat.length ≤ a.length
  · left
    have hs : s.length ≤ a.length := by
      have := List.length_pos.mpr hpat
      omega
    have key : a = s ++ (pat ++ t.take (a.length - s.length - pat.length)) := by
      calc a = (a ++ (b ++ c)).take a.length := (List.take_left a (b ++ c)).symm
        _ = (s ++ (pat ++ t)).take a.length := by rw [heq]
        _ = s.take a.length ++ (pat ++ t).take (a.length - s.length) :=
            List.take_append_eq_append_take
        _ = s ++ (pat ++ t).take (a.length - s.length) := by
            rw [List.take_of_length_le hs]
        _ = s ++ (pat.take (a.length - s.length)
              ++ t.take (a.length - s.length - pat.length)) := by
            rw [List.take_append_eq_append_take]
        _ = s ++ (pat ++ t.take (a.length - s.length - pat.length)) := by
            rw [List.take_of_length_le (by omega)]
    exact ⟨s, t.take (a.length - s.length - pat.length), by
      rw [List.append_assoc]; exact key.symm⟩
  · by_cases h2 : a.length + b.length ≤ s.length
    · right
      have key : c = s.drop (a.length + b.length) ++ (pat ++ t) := by
        calc c = (a ++ (b ++ c)).drop (a.length + b.length) := by
              rw [show a ++ (b ++ c) = (a ++ b) ++ c from (List.append_assoc a b c).symm]
              rw [show a.length + b.length = (a ++ b).length from
                (List.length_append a b).symm]
              exact (List.drop_left (a ++ b) c).symm
          _ = (s ++ (pat ++ t)).drop (a.length + b.length) := by rw [heq]
          _ = s.drop (a.length + b.length)
                ++ (pat ++ t).drop (a.length + b.length - s.length) :=
              List.drop_append_eq_append_drop
          _ = s.drop (a.length + b.length) ++ (pat ++ t) := by
              rw [show a.length + b.length - s.length = 0 from by omega]
              rfl
      exact ⟨s.drop (a.length + b.length), t, by
        rw [List.append_assoc]; exact key.symm⟩
    · exfalso
      push_neg at h1 h2
      have hpl := List.length_pos.mpr hpat
      have hbl := List.length_pos.mpr hb
      set j := max s.length a.length with hj
      have hj1 : s.length ≤ j := le_max_left _ _
      have hj2 : a.length ≤ j := le_max_right _ _
      have hj3 : j < s.length + pat.length := by omega
      have hj4 : j < a.length + b.length := by omega
      have hlt1 : j - s.length < pat.length := by omega
      have hlt2 : j - a.length < b.length := by omega
      have e1 : (s ++ (pat ++ t))[j]? = some (pat[j - s.length]) := by
        rw [List.getElem?_append_right hj1,
          List.getElem?_append_left hlt1,
          List.getElem?_eq_getElem hlt1]
      have e2 : (a ++ (b ++ c))[j]? = some (b[j - a.length]) := by
        rw [List.getElem?_append_right hj2,
          List.getElem?_append_left hlt2,
          List.getElem?_eq_getElem hlt2]
      rw [heq, e2] at e1
      exact hdisj _ (List.getElem_mem hlt1) _ (List.getElem_mem hlt2)
        (Option.some.inj e1.symm)

/-- A nonempty all-non-numeric pattern absent from every literal of an
alternating literal/number template is absent from the rendered text. -/
lemma not_infix_renderAlt (pat : List Char) (hpat : pat ≠ [])
    (hnum : ∀ x ∈ pat, isNumChar x = false) :
    ∀ (rest : List (ℚ × List Char)) (first : List Char),
      ¬ pat <:+: first → (∀ p ∈ rest, ¬ pat <:+: p.2) →
      ¬ pat <:+: renderAlt first rest := by
  intro rest
  induction rest with
  | nil =>
    intro first hf _ hinf
    exact hf hinf
  | cons ql rest ih =>
    intro first hf hl hinf
    rw [show renderAlt first (ql :: rest) =
      first ++ fmt0 ql.1 ++ renderAlt ql.2 rest from by
        rw [List.append_assoc]; rfl] at hinf
    have hdisj : ∀ x ∈ pat, ∀ y ∈ fmt0 ql.1, x ≠ y := by
      intro x hx y hy he
      subst he
      have h2 := fmt0_isNum ql.1 x hy
      rw [hnum x hx] at h2
      exact Bool.false_ne_true h2
    rcases infix_middle hpat (fmt0_ne_nil ql.1) hdisj hinf with h | h
    · exact hf h
    · exact ih ql.2 (hl ql (List.mem_cons_self ql rest))
        (fun p hp => hl p (List.mem_cons_of_mem ql hp)) h

lemma getElem?_renderAlt_first (first : List Char)
    (rest : List (ℚ × List Char)) (j : Nat) (hj : j < first.length) :
    (renderAlt first rest)[j]? = first[j]? := by
  cases rest with
  | nil => rfl
  | cons ql rest =>
    cases ql with
    | mk q lit =>
      show (first ++ (fmt0 q ++ renderAlt lit rest))[j]? = first[j]?
      exact List.getElem?_append_left hj

lemma renderWithout_ne_renderWith
    (i r c f s a w mn mx i2 r2 c2 ic2 f2 s2 a2 w2 m2 x2 : ℚ) :
    renderWithout i r c f s a w mn mx ≠
      renderWith i2 r2 c2 ic2 f2 s2 a2 w2 m2 x2 := by
  intro he
  have hd := congrArg String.data he
  have e1 : (renderWithout i r c f s a w mn mx).data[130]? = some '\n' := by
    rw [show (renderWithout i r c f s a w mn mx).data =
        renderAlt tmplNo0 [(i, tmplRowsLit), (r, tmplColsLitNo), (c, tmplFilterLit),
          (f, tmplOpsLit), (s, tmplAvgLit), (a, tmplWSumLit), (w, tmplMinLit),
          (mn, tmplMaxLit), (mx, tmplTail)] from rfl]
    rw [getElem?_renderAlt_first _ _ 130 (by decide)]
    decide
  have e2 : (renderWith i2 r2 c2 ic2 f2 s2 a2 w2 m2 x2).data[130]? = some 'M' := by
    rw [show (renderWith i2 r2 c2 ic2 f2 s2 a2 w2 m2 x2).data =
        renderAlt tmplWith0 [(i2, tmplRowsLit), (r2, tmplColsLitWith),
          (c2, tmplInterLit), (ic2, tmplFilterLit), (f2, tmplOpsLit),
          (s2, tmplAvgLit), (a2, tmplWSumLit), (w2, tmplMinLit),
          (m2, tmplMaxLit), (x2, tmplTail)] from rfl]
    rw [getElem?_renderAlt_first _ _ 130 (by decide)]
    decide
  rw [hd, e2] at e1
  exact absurd e1 (by decide)

lemma snippet_infix_renderWith (i r c ic f s a w mn mx : ℚ) :
    interactionSnippet.data <:+: (renderWith i r c ic f s a w mn mx).data := by
  have h1 : interactionSnippet.data <:+: tmplInterLit := by decide
  have h2 : tmplInterLit <:+: (renderWith i r c ic f s a w mn mx).data := by
    refine ⟨tmplWith0 ++ fmt0 i ++ tmplRowsLit ++ fmt0 r
        ++ tmplColsLitWith ++ fmt0 c,
      fmt0 ic ++ renderAlt tmplFilterLit [(f, tmplOpsLit), (s, tmplAvgLit),
        (a, tmplWSumLit), (w, tmplMinLit), (mn, tmplMaxLit), (mx, tmplTail)], ?_⟩
    show _ = renderAlt tmplWith0 [(i, tmplRowsLit), (r, tmplColsLitWith),
      (c, tmplInterLit), (ic, tmplFilterLit), (f, tmplOpsLit), (s, tmplAvgLit),
      (a, tmplWSumLit), (w, tmplMinLit), (mn, tmplMaxLit), (mx, tmplTail)]
    simp [renderAlt, List.append_assoc]
  exact h1.trans h2

lemma snippet_not_infix_renderWithout (i r c f s a w mn mx : ℚ) :
    ¬ interactionSnippet.data <:+: (renderWithout i r c f s a w mn mx).data := by
  rw [show (renderWithout i r c f s a w mn mx).data =
      renderAlt tmplNo0 [(i, tmplRowsLit), (r, tmplColsLitNo), (c, tmplFilterLit),
        (f, tmplOpsLit), (s, tmplAvgLit), (a, tmplWSumLit), (w, tmplMinLit),
        (mn, tmplMaxLit), (mx, tmplTail)] from rfl]
  apply not_infix_renderAlt interactionSnippet.data (by decide) (by decide)
  · decide
  · intro p hp
    simp only [List.mem_cons, List.not_mem_nil, or_false] at hp
    rcases hp with rfl | rfl | rfl | rfl | rfl | rfl | rfl | rfl | rfl
    · exact (by decide : ¬ interactionSnippet.data <:+: tmplRowsLit)
    · exact (by decide : ¬ interactionSnippet.data <:+: tmplColsLitNo)
    · exact (by decide : ¬ interactionSnippet.data <:+: tmplFilterLit)
    · exact (by decide : ¬ interactionSnippet.data <:+: tmplOpsLit)
    · exact (by decide : ¬ interactionSnippet.data <:+: tmplAvgLit)
    · exact (by decide : ¬ interactionSnippet.data <:+: tmplWSumLit)
    · exact (by decide : ¬ interactionSnippet.data <:+: tmplMinLit)
    · exact (by decide : ¬ interactionSnippet.data <:+: tmplMaxLit)
    · exact (by decide : ¬ interactionSnippet.data <:+: tmplTail)

/-- C2 formalised: the generator emits exactly one of two template variants,
selected by whether `Rows_x_Columns` occurs among the coefficient table
features; with the feature absent the emitted text is (for any coefficient
values) distinct from every with-interaction rendering and contains no
rows×columns interaction line. -/
theorem c2_two_template_variants (intercept : ℚ)
    (coef_df : List (String × ℚ)) :
    (hasInteraction coef_df = true →
      generate_estimator_code intercept coef_df =
        renderWith intercept (lookupCoef coef_df "Rows")
          (lookupCoef coef_df "Columns") (lookupCoef coef_df "Rows_x_Columns")
          (lookupCoef coef_df "FilterBytes") (lookupCoef coef_df "Op_SUM")
          (lookupCoef coef_df "Op_AVG_P") (lookupCoef coef_df "Op_WEIGHTED_SUM")
          (lookupCoef coef_df "Op_MIN") (lookupCoef coef_df "Op_MAX") ∧
      interactionSnippet.data <:+:
        (generate_estimator_code intercept coef_df).data) ∧
    (hasInteraction coef_df = false →
      generate_estimator_code intercept coef_df =
        renderWithout intercept (lookupCoef coef_df "Rows")
          (lookupCoef coef_df "Columns") (lookupCoef coef_df "FilterBytes")
          (lookupCoef coef_df "Op_SUM") (lookupCoef coef_df "Op_AVG_P")
          (lookupCoef coef_df "Op_WEIGHTED_SUM") (lookupCoef coef_df "Op_MIN")
          (lookupCoef coef_df "Op_MAX") ∧
      (∀ i2 r2 c2 ic2 f2 s2 a2 w2 m2 x2 : ℚ,
        generate_estimator_code intercept coef_df ≠
          renderWith i2 r2 c2 ic2 f2 s2 a2 w2 m2 x2) ∧
      ¬ interactionSnippet.data <:+:
          (generate_estimator_code intercept coef_df).data) := by
  constructor
  · intro hi
    have hg : generate_estimator_code intercept coef_df =
        renderWith intercept (lookupCoef coef_df "Rows")
          (lookupCoef coef_df "Columns") (lookupCoef coef_df "Rows_x_Columns")
          (lookupCoef coef_df "FilterBytes") (lookupCoef coef_df "Op_SUM")
          (lookupCoef coef_df "Op_AVG_P") (lookupCoef coef_df "Op_WEIGHTED_SUM")
          (lookupCoef coef_df "Op_MIN") (lookupCoef coef_df "Op_MAX") := by
      unfold generate_estimator_code
      rw [if_pos hi]
    refine ⟨hg, ?_⟩
    rw [hg]
    exact snippet_infix_renderWith _ _ _ _ _ _ _ _ _ _
  · intro hi
    have hg : generate_estimator_code intercept coef_df =
        renderWithout intercept (lookupCoef coef_df "Rows")
          (lookupCoef coef_df "Columns") (lookupCoef coef_df "FilterBytes")
          (lookupCoef coef_df "Op_SUM") (lookupCoef coef_df "Op_AVG_P")
          (lookupCoef coef_df "Op_WEIGHTED_SUM") (lookupCoef coef_df "Op_MIN")
          (lookupCoef coef_df "Op_MAX") := by
      unfold generate_estimator_code
      rw [if_neg (by rw [hi]; exact Bool.false_ne_true)]
    refine ⟨hg, ?_, ?_⟩
    · intro i2 r2 c2 ic2 f2 s2 a2 w2 m2 x2
      rw [hg]
      exact renderWithout_ne_renderWith _ _ _ _ _ _ _ _ _ _ _ _ _ _ _ _ _ _ _
    · rw [hg]
      exact snippet_not_infix_renderWithout _ _ _ _ _ _ _ _ _

theorem c2_two_template_variants_witness :
    (hasInteraction [("Rows_x_Columns", (2 : ℚ))] = true) ∧
    (hasInteraction [("Rows", (5 : ℚ))] = false) ∧
    interactionSnippet.data <:+:
      (generate_estimator_code 3 [("Rows_x_Columns", (2 : ℚ))]).data ∧
    generate_estimator_code 3 [("Rows", (5 : ℚ))] ≠
      renderWith 1 1 1 1 1 1 1 1 1 1 ∧
    ¬ interactionSnippet.data <:+:
        (generate_estimator_code 3 [("Rows", (5 : ℚ))]).data := by
  have h1 := (c2_two_template_variants 3 [("Rows_x_Columns", (2 : ℚ))]).1
    (by decide)
  have h2 := (c2_two_template_variants 3 [("Rows", (5 : ℚ))]).2 (by decide)
  exact ⟨by decide, by decide, h1.2, h2.2.1 1 1 1 1 1 1 1 1 1 1, h2.2.2⟩
